import Mathlib

/-
Verification of the envicutor sandbox orchestrator (Rust sources:
src/envicutor/src/isolate.rs, src/envicutor/src/install_packages.rs,
src/worker/child-container-init/src/main.rs) against its natural-language
specification.

Strings are modelled at the character level (List Char wrapped in String at
the API) so that every definition is executable and kernel-decidable.
-/

namespace Envicutor

/-! ## Character-level string helpers mirroring Rust `str` operations -/

/-- Splits a character list at every occurrence of the separator, keeping empty
pieces, exactly like Rust `str::split(sep)`: the empty input yields one empty
piece, a trailing separator yields a trailing empty piece. -/
def splitAux (sep : Char) : List Char → List Char → List (List Char)
  | [], acc => [acc.reverse]
  | x :: xs, acc =>
    if x = sep then acc.reverse :: splitAux sep xs []
    else splitAux sep xs (x :: acc)

/-- Rust `line.split(sep)` on the characters of a line. -/
def splitChar (sep : Char) (s : List Char) : List (List Char) :=
  splitAux sep s []

/-- Drops a single trailing carriage return; applied only to lines that were
terminated by a line feed, so that a CR-LF ending is treated as one line
ending, exactly as Rust `str::lines` does. -/
def stripCR (l : List Char) : List Char :=
  if l.getLast? = some '\r' then l.dropLast else l

/-- The pieces produced by splitting on every newline, turned into Rust lines:
every piece but the last was terminated by a line feed, so a carriage return
immediately preceding that line feed is removed; the last piece is
unterminated — it is kept verbatim (any trailing carriage return included)
unless it is empty, in which case the input ended with a line feed (the final
line ending is optional) and no extra empty line is produced. -/
def rustLinesAux : List (List Char) → List (List Char)
  | [] => []
  | [last] => if last = [] then [] else [last]
  | l :: rest => stripCR l :: rustLinesAux rest

/-- Rust `str::lines`: lines are split at every line feed, a carriage return
followed by a line feed counts as a single line ending, the final line ending
is optional, and a carriage return not followed by a line feed is kept in its
line. -/
def rustLines (s : String) : List (List Char) :=
  rustLinesAux (splitChar '\n' s.data)

/-- Rust `str::parse::<u32>()`: an optional leading plus sign followed by one
or more ASCII digits, with the value required to fit in 32 bits; anything else
(including a fractional value such as "1.5") is a parse error, returned here
as `none`. -/
def parseU32 (s : List Char) : Option Nat :=
  let digits := match s with
    | '+' :: rest => rest
    | other => other
  if digits = [] then none
  else if digits.all (fun c => c.isDigit) then
    let v := digits.foldl (fun a c => a * 10 + (c.toNat - 48)) 0
    if v < 4294967296 then some v else none
  else none

/-! ## Metadata decoder (isolate.rs lines 24-36 and 92-140; the identical
loop is duplicated in install_packages.rs lines 47-59 and 358-455) -/

/-- Model of `split_metadata_line` (isolate.rs:24): split the line on every
colon, pop the last piece as the value and the piece before it as the key.
A line with no colon yields one piece, so the key pop fails (`none`); the
value pop can only fail on an empty piece list, which `splitChar` never
produces. -/
def split_metadata_line (line : List Char) : Option (List Char) × Option (List Char) :=
  match (splitChar ':' line).reverse with
  | [] => (none, none)
  | [v] => (none, some v)
  | v :: k :: _ => (some k, some v)

/-- The accumulating record of recognized metadata fields
(the seven mutable locals of `Isolate::run`, isolate.rs:92-98). -/
structure Meta where
  memory : Option Nat
  exit_code : Option Nat
  exit_signal : Option Nat
  exit_message : Option String
  exit_status : Option String
  cpu_time : Option Nat
  wall_time : Option Nat
deriving DecidableEq

/-- The empty metadata record: every field starts out `None`. -/
def Meta.empty : Meta := ⟨none, none, none, none, none, none, none⟩

/-- One iteration of the metadata loop (isolate.rs:104-140): split the line,
fail when the key is missing, then match the key; numeric fields fail the
whole decode when their value does not parse as a u32; unknown keys are
ignored. -/
def decodeLine (m : Meta) (line : List Char) : Except String Meta :=
  match split_metadata_line line with
  | (some key, some value) =>
    if key = "cgmem".data then
      match parseU32 value with
      | some v => Except.ok ⟨some v, m.exit_code, m.exit_signal, m.exit_message, m.exit_status, m.cpu_time, m.wall_time⟩
      | none => Except.error "Failed to parse memory usage"
    else if key = "exitcode".data then
      match parseU32 value with
      | some v => Except.ok ⟨m.memory, some v, m.exit_signal, m.exit_message, m.exit_status, m.cpu_time, m.wall_time⟩
      | none => Except.error "Failed to parse exit code"
    else if key = "exitsig".data then
      match parseU32 value with
      | some v => Except.ok ⟨m.memory, m.exit_code, some v, m.exit_message, m.exit_status, m.cpu_time, m.wall_time⟩
      | none => Except.error "Failed to parse exit signal"
    else if key = "message".data then
      Except.ok ⟨m.memory, m.exit_code, m.exit_signal, some (String.mk value), m.exit_status, m.cpu_time, m.wall_time⟩
    else if key = "status".data then
      Except.ok ⟨m.memory, m.exit_code, m.exit_signal, m.exit_message, some (String.mk value), m.cpu_time, m.wall_time⟩
    else if key = "time".data then
      match parseU32 value with
      | some v => Except.ok ⟨m.memory, m.exit_code, m.exit_signal, m.exit_message, m.exit_status, some v, m.wall_time⟩
      | none => Except.error "Failed to parse cpu time"
    else if key = "time-wall".data then
      match parseU32 value with
      | some v => Except.ok ⟨m.memory, m.exit_code, m.exit_signal, m.exit_message, m.exit_status, m.cpu_time, some v⟩
      | none => Except.error "Failed to parse wall time"
    else Except.ok m
  | _ => Except.error "Failed to parse metadata file"

/-- The metadata loop over all lines, short-circuiting on the first error. -/
def decodeLines : Meta → List (List Char) → Except String Meta
  | m, [] => Except.ok m
  | m, l :: ls =>
    match decodeLine m l with
    | Except.ok m2 => decodeLines m2 ls
    | Except.error e => Except.error e

/-- Decode a whole metadata file as `Isolate::run` does: iterate the loop over
its Rust `lines()`. -/
def decodeMetadata (s : String) : Except String Meta :=
  decodeLines Meta.empty (rustLines s)

/-! ## Isolate handle (isolate.rs) -/

/-- The `Isolate` struct (isolate.rs:6-9). -/
structure Isolate where
  box_id : Nat
  metadata_file_path : String
deriving DecidableEq

/-- The `StageResult` struct (isolate.rs:11-22). -/
structure StageResult where
  memory : Option Nat
  exit_code : Option Nat
  exit_signal : Option Nat
  exit_message : Option String
  exit_status : Option String
  stdout : String
  stderr : String
  cpu_time : Option Nat
  wall_time : Option Nat
deriving DecidableEq

/-- Assembling the `StageResult` returned at the end of `Isolate::run`
(isolate.rs:149-159): the decoded metadata fields plus the lossily decoded
captured output streams. -/
def mkStageResult (m : Meta) (stdoutS stderrS : String) : StageResult :=
  ⟨m.memory, m.exit_code, m.exit_signal, m.exit_message, m.exit_status,
   stdoutS, stderrS, m.cpu_time, m.wall_time⟩

/-- Rust `str::trim` on the underlying characters (whitespace stripped from
both ends), used on the stdout of `isolate --init` to obtain the box
directory. Whitespace is modelled by `Char.isWhitespace` (space, tab, CR,
LF), which agrees with Rust on the ASCII whitespace a path ever carries;
Rust additionally trims the rarer Unicode whitespace characters. -/
def trimChars (s : List Char) : List Char :=
  ((s.dropWhile Char.isWhitespace).reverse.dropWhile Char.isWhitespace).reverse

/-- Outcome of `Isolate::init` (isolate.rs:39-59): on a failing exit status of
the init process no handle is produced and the captured stderr and stdout are
carried in the error; on success the handle holds the box id and the metadata
path derived from the trimmed stdout. -/
inductive InitResult where
  | failure (stderr stdout : String)
  | success (handle : Isolate)
deriving DecidableEq

/-- Model of `Isolate::init` after the init process has produced an exit
status and captured output (the spawn itself having succeeded). -/
def isolateInit (boxId : Nat) (statusSuccess : Bool) (stdoutS stderrS : String) : InitResult :=
  if !statusSuccess then InitResult.failure stderrS stdoutS
  else InitResult.success ⟨boxId, String.mk (trimChars stdoutS.data) ++ "/metadata.txt"⟩

/-- Model of `Isolate::run` (isolate.rs:61-162) after the run process has
terminated with the given exit-status success flag and the metadata file has
been read into `metadata`: decode every metadata line (propagating decode
errors), then fail only when the primitive exited unsuccessfully and the
decoded metadata holds no exit code; otherwise return the stage result. -/
def isolateRun (statusSuccess : Bool) (metadata stdoutS stderrS : String) :
    Except String StageResult :=
  match decodeMetadata metadata with
  | Except.error e => Except.error e
  | Except.ok m =>
    if !statusSuccess && m.exit_code.isNone then
      Except.error "isolate --run exited with error code but exit code was not found in metadata"
    else Except.ok (mkStageResult m stdoutS stderrS)

/-! ## Box identifier allocator (install_packages.rs:25 and :89) -/

/-- `MAX_BOX_ID` (install_packages.rs:25). -/
def MAX_BOX_ID : Nat := 900

/-- The modulus of the `AtomicU64` counter backing the allocator: `fetch_add`
wraps around at 2 to the 64th power. -/
def U64_MOD : Nat := 2 ^ 64

/-- One allocation (install_packages.rs:89): `box_id.fetch_add(1, SeqCst)`
returns the previous counter value (a u64, hence already reduced mod 2^64)
and the allocator takes it mod `MAX_BOX_ID`. -/
def nextBoxId (counter : Nat) : Nat :=
  (counter % U64_MOD) % MAX_BOX_ID

/-- The counter value after one `fetch_add(1)`, with u64 wraparound. -/
def counterAfter (counter : Nat) : Nat :=
  (counter + 1) % U64_MOD

/-- The box id returned by the i-th successive allocation starting from
counter value `c`. -/
def boxSeq : Nat → Nat → Nat
  | c, 0 => nextBoxId c
  | c, i + 1 => boxSeq (counterAfter c) i

/-! ## Handle destruction (isolate.rs:165-189, `impl Drop for Isolate`) -/

/-- A command issued to the isolation primitive during handle destruction. -/
inductive CleanupCmd where
  | cleanup (box_id : Nat)
deriving DecidableEq

/-- What the spawned cleanup task observes: either the cleanup process could
not be run at all, or it finished with an exit-status success flag and
captured output. -/
inductive CleanupOutcome where
  | spawnFailure (msg : String)
  | finished (statusSuccess : Bool) (stdoutS stderrS : String)
deriving DecidableEq

/-- The observable effects of the drop handler: the primitive commands it
issues and the log lines it emits. Its type has no error component, matching
the `Drop` implementation, which returns nothing to the caller. -/
structure DropEffects where
  commands : List CleanupCmd
  logs : List String
deriving DecidableEq

/-- Model of the body of `Drop for Isolate` (isolate.rs:166-188): spawn a task
that issues exactly one `isolate --cleanup` for the handle's box id; a failing
exit status or a failed spawn is only written to the log. -/
def isolateDrop (boxId : Nat) (outcome : CleanupOutcome) : DropEffects :=
  ⟨[CleanupCmd.cleanup boxId],
    match outcome with
    | CleanupOutcome.finished true _ _ => []
    | CleanupOutcome.finished false outS errS =>
        ["isolate --cleanup failed with stderr: " ++ errS ++ " stdout: " ++ outS]
    | CleanupOutcome.spawnFailure e =>
        ["Failed to run isolate --cleanup, error: " ++ e]⟩

/-! ## Installation pipeline (install_packages.rs:61-469, `install_package`) -/

/-- The mandatory resource limits (the `MandatoryLimits` consumed by the run
invocation; its defining file is not under src/, but only the field names are
needed here, taken from the run arguments at install_packages.rs:161-167). -/
structure Limits where
  memory : Nat
  cpu_time : Nat
  wall_time : Nat
  extra_time : Nat
  max_open_files : Nat
  max_file_size : Nat
  max_number_of_processes : Nat
deriving DecidableEq

/-- The per-request limit overrides carried by an `AddRuntimeRequest`; each
field is optional. Modelled from the spec: `requests.rs` is not under src/. -/
structure RequestedLimits where
  memory : Option Nat
  cpu_time : Option Nat
  wall_time : Option Nat
  extra_time : Option Nat
  max_open_files : Option Nat
  max_file_size : Option Nat
  max_number_of_processes : Option Nat
deriving DecidableEq

/-- True when a requested value exceeds the configured ceiling. -/
def overCeiling (v : Option Nat) (c : Nat) : Bool :=
  match v with
  | some x => decide (c < x)
  | none => false

/-- Modelled from the spec: `AddRuntimeRequest::get_limits` (requests.rs /
limits.rs, not under src/). The spec says the installation-specific validation
"additionally enforces values stay within system-configured ceilings
(rejecting requests that exceed them is a caller error)", returning an error
message used for a BAD_REQUEST response; a request field left unset falls back
to the configured value. -/
def get_limits (r : RequestedLimits) (c : Limits) : Except String Limits :=
  if overCeiling r.memory c.memory then
    Except.error "memory limit exceeds the configured ceiling"
  else if overCeiling r.cpu_time c.cpu_time then
    Except.error "cpu time limit exceeds the configured ceiling"
  else if overCeiling r.wall_time c.wall_time then
    Except.error "wall time limit exceeds the configured ceiling"
  else if overCeiling r.extra_time c.extra_time then
    Except.error "extra time limit exceeds the configured ceiling"
  else if overCeiling r.max_open_files c.max_open_files then
    Except.error "open files limit exceeds the configured ceiling"
  else if overCeiling r.max_file_size c.max_file_size then
    Except.error "file size limit exceeds the configured ceiling"
  else if overCeiling r.max_number_of_processes c.max_number_of_processes then
    Except.error "process count limit exceeds the configured ceiling"
  else Except.ok
    ⟨r.memory.getD c.memory, r.cpu_time.getD c.cpu_time, r.wall_time.getD c.wall_time,
     r.extra_time.getD c.extra_time, r.max_open_files.getD c.max_open_files,
     r.max_file_size.getD c.max_file_size,
     r.max_number_of_processes.getD c.max_number_of_processes⟩

/-- The fields of an `AddRuntimeRequest` used by `install_package`
(install_packages.rs:66-78, 127, 188-189, 265-267, 292, 339, 352). -/
structure AddRuntimeRequest where
  name : String
  nix_shell : String
  run_script : String
  source_file_name : String
  compile_script : String
  limits : RequestedLimits
deriving DecidableEq

/-- The filesystem paths `install_package` builds; one constructor per
`format!` pattern, keeping distinct patterns distinct. -/
inductive PathName where
  | boxWorkdir (boxId : Nat)
  | boxNixShell (boxId : Nat)
  | boxMetadata (boxId : Nat)
  | runtimeDir (runtimeId : Nat)
  | runtimeCompile (runtimeId : Nat)
  | runtimeRun (runtimeId : Nat)
  | runtimeEnv (runtimeId : Nat)
  | runtimeNixShell (runtimeId : Nat)
deriving DecidableEq

/-- The concrete string each `PathName` renders to in the source. -/
def pathString : PathName → String
  | PathName.boxWorkdir b => "/tmp/" ++ toString b
  | PathName.boxNixShell b => "/tmp/" ++ toString b ++ "/box/shell.nix"
  | PathName.boxMetadata b => "/tmp/" ++ toString b ++ "/metadata.txt"
  | PathName.runtimeDir r => "/envicutor/runtimes/" ++ toString r
  | PathName.runtimeCompile r => "/envicutor/runtimes/" ++ toString r ++ "/compile"
  | PathName.runtimeRun r => "/envicutor/runtimes/" ++ toString r ++ "/run"
  | PathName.runtimeEnv r => "/envicutor/runtimes/" ++ toString r ++ "/env"
  | PathName.runtimeNixShell r => "/envicutor/runtimes/" ++ toString r ++ "/shell.nix"

/-- The externally visible steps `install_package` performs, in program
order. -/
inductive Event where
  | initCmd (boxId : Nat)
  | removeDirAll (p : PathName)
  | createDir (p : PathName)
  | writeFile (p : PathName) (content : String)
  | setPermissions (p : PathName)
  | runCmd (boxId : Nat)
  | dbInsert (name source_file_name : String)
  | cacheInsert (runtimeId : Nat) (name : String)
deriving DecidableEq

/-- The response `install_package` produces: a 400 with a message, a 500, or
a 200 carrying the decoded stage result. -/
inductive Response where
  | badRequest (message : String)
  | internalError
  | okResult (r : StageResult)
deriving DecidableEq

/-- The outcomes of every external effect `install_package` performs, fixed up
front so the pipeline itself is a pure function of them. `initExitSuccess`
records the exit status of `isolate --init`; the source never reads it. -/
structure Env where
  initSpawnOk : Bool
  initExitSuccess : Bool
  workdirExists : Bool
  removeWorkdirOk : Bool
  createWorkdirOk : Bool
  writeNixOk : Bool
  semaphoreOk : Bool
  runSpawnOk : Bool
  runExitSuccess : Bool
  runStdout : String
  runStderr : String
  dbOk : Bool
  runtimeId : Nat
  runtimeDirExists : Bool
  removeRuntimeDirOk : Bool
  createRuntimeDirOk : Bool
  writeCompileOk : Bool
  permCompileOk : Bool
  writeRunOk : Bool
  permRunOk : Bool
  writeEnvOk : Bool
  permEnvOk : Bool
  writeShellNixOk : Bool
  metadataContent : Option String
deriving DecidableEq

/-- The request-body validation chain (install_packages.rs:68-78): the first
empty required field determines the message; an empty message means the
request passed validation. -/
def validationMessage (req : AddRuntimeRequest) : String :=
  if req.name = "" then "Name can\x27t be empty"
  else if req.nix_shell = "" then "Nix shell can\x27t be empty"
  else if req.run_script = "" then "Run command can\x27t be empty"
  else if req.source_file_name = "" then "Source file name can\x27t be empty"
  else ""

/-- The tail of `install_package` (install_packages.rs:358-468): read the
metadata file, decode every line with the same loop as `Isolate::run`, and on
success answer 200 OK with the stage result; a read or decode failure is a
500. Note there is no check of the run exit status here. -/
def decodePhase (t : List Event) (env : Env) : List Event × Response :=
  match env.metadataContent with
  | none => (t, Response.internalError)
  | some s =>
    match decodeMetadata s with
    | Except.error _ => (t, Response.internalError)
    | Except.ok m => (t, Response.okResult (mkStageResult m env.runStdout env.runStderr))

/-- The script-writing steps of the persistence block
(install_packages.rs:291-353): write and chmod the run script, the captured
environment export, and the original recipe, then add the name-cache entry
and fall through to the metadata decode. -/
def scriptsPhase (req : AddRuntimeRequest) (env : Env) (t : List Event) :
    List Event × Response :=
  let t := t ++ [Event.writeFile (PathName.runtimeRun env.runtimeId) req.run_script]
  if !env.writeRunOk then (t, Response.internalError) else
  let t := t ++ [Event.setPermissions (PathName.runtimeRun env.runtimeId)]
  if !env.permRunOk then (t, Response.internalError) else
  let t := t ++ [Event.writeFile (PathName.runtimeEnv env.runtimeId) env.runStdout]
  if !env.writeEnvOk then (t, Response.internalError) else
  let t := t ++ [Event.setPermissions (PathName.runtimeEnv env.runtimeId)]
  if !env.permEnvOk then (t, Response.internalError) else
  let t := t ++ [Event.writeFile (PathName.runtimeNixShell env.runtimeId) req.nix_shell]
  if !env.writeShellNixOk then (t, Response.internalError) else
  let t := t ++ [Event.cacheInsert env.runtimeId req.name]
  decodePhase t env

/-- The optional compile-script step (install_packages.rs:265-289): written
and made executable only when a non-empty compile script was supplied. -/
def compilePhase (req : AddRuntimeRequest) (env : Env) (t : List Event) :
    List Event × Response :=
  if req.compile_script ≠ "" then
    let t := t ++ [Event.writeFile (PathName.runtimeCompile env.runtimeId) req.compile_script]
    if !env.writeCompileOk then (t, Response.internalError) else
    let t := t ++ [Event.setPermissions (PathName.runtimeCompile env.runtimeId)]
    if !env.permCompileOk then (t, Response.internalError) else
    scriptsPhase req env t
  else scriptsPhase req env t

/-- The persistence block guarded by the run exit status
(install_packages.rs:187-263): insert the registry row, defensively reset the
runtime artifact directory, then write the artifacts. -/
def persistPhase (req : AddRuntimeRequest) (env : Env) (t : List Event) :
    List Event × Response :=
  let t := t ++ [Event.dbInsert req.name req.source_file_name]
  if !env.dbOk then (t, Response.internalError) else
  let t := if env.runtimeDirExists then
      t ++ [Event.removeDirAll (PathName.runtimeDir env.runtimeId)] else t
  if env.runtimeDirExists && !env.removeRuntimeDirOk then (t, Response.internalError) else
  let t := t ++ [Event.createDir (PathName.runtimeDir env.runtimeId)]
  if !env.createRuntimeDirOk then (t, Response.internalError) else
  compilePhase req env t

/-- Model of `install_package` (install_packages.rs:61-469) as a pure function
of the request, the configured ceilings, the current counter value, and the
outcomes of its external effects. It returns the ordered list of externally
visible steps together with the HTTP-level response. The program order is
that of the source: validation, `isolate --init` (whose exit status is never
inspected), working-directory reset, recipe write, limit validation,
semaphore, `isolate --run`, the persistence block only on a succeeding run,
and finally the metadata decode. -/
def installPackage (req : AddRuntimeRequest) (ceiling : Limits) (counter : Nat)
    (env : Env) : List Event × Response :=
  if validationMessage req ≠ "" then ([], Response.badRequest (validationMessage req))
  else
    let current_box_id := nextBoxId counter
    let t := [Event.initCmd current_box_id]
    if !env.initSpawnOk then (t, Response.internalError) else
    let t := if env.workdirExists then
        t ++ [Event.removeDirAll (PathName.boxWorkdir current_box_id)] else t
    if env.workdirExists && !env.removeWorkdirOk then (t, Response.internalError) else
    let t := t ++ [Event.createDir (PathName.boxWorkdir current_box_id)]
    if !env.createWorkdirOk then (t, Response.internalError) else
    let t := t ++ [Event.writeFile (PathName.boxNixShell current_box_id) req.nix_shell]
    if !env.writeNixOk then (t, Response.internalError) else
    match get_limits req.limits ceiling with
    | Except.error message => (t, Response.badRequest message)
    | Except.ok _ =>
      if !env.semaphoreOk then (t, Response.internalError) else
      let t := t ++ [Event.runCmd current_box_id]
      if !env.runSpawnOk then (t, Response.internalError) else
      if env.runExitSuccess then persistPhase req env t
      else decodePhase t env

/-! ## Helper predicates and lemmas for the decoder claims -/

/-- True when the key is one of the decoder's numeric fields. -/
def numericKeyChars (k : List Char) : Bool :=
  decide (k = "cgmem".data) || decide (k = "exitcode".data) || decide (k = "exitsig".data) ||
  decide (k = "time".data) || decide (k = "time-wall".data)

/-- A line the decoder must reject: either its key pop fails (no colon), or it
is a recognized numeric field whose value does not parse as a u32. -/
def badLine (line : List Char) : Bool :=
  match split_metadata_line line with
  | (some key, some value) => numericKeyChars key && (parseU32 value).isNone
  | _ => true

/-- A `time` or `time-wall` line whose value does not parse as a u32
(in particular, any fractional-seconds value). -/
def badTimeLine (line : List Char) : Bool :=
  match split_metadata_line line with
  | (some key, some value) =>
      (decide (key = "time".data) || decide (key = "time-wall".data)) && (parseU32 value).isNone
  | _ => false

theorem badLine_of_badTimeLine {line : List Char} (h : badTimeLine line = true) :
    badLine line = true := by
  unfold badTimeLine at h
  unfold badLine numericKeyChars
  rcases hs : split_metadata_line line with ⟨ko, vo⟩
  rw [hs] at h
  cases ko <;> cases vo <;> simp_all
  tauto

theorem decodeLine_error_of_badLine {line : List Char} (h : badLine line = true) :
    ∀ m : Meta, ∃ e, decodeLine m line = Except.error e := by
  intro m
  unfold badLine at h
  unfold decodeLine
  rcases hs : split_metadata_line line with ⟨ko, vo⟩
  rw [hs] at h
  cases ko with
  | none => cases vo <;> exact ⟨_, rfl⟩
  | some key =>
    cases vo with
    | none => exact ⟨_, rfl⟩
    | some value =>
      dsimp only at h ⊢
      simp only [Bool.and_eq_true] at h
      obtain ⟨hk, hv⟩ := h
      rw [Option.isNone_iff_eq_none] at hv
      simp only [numericKeyChars, Bool.or_eq_true, decide_eq_true_eq] at hk
      rcases hk with ((((h1 | h1) | h1) | h1) | h1) <;> subst h1
      · exact ⟨_, by rw [if_pos rfl, hv]⟩
      · exact ⟨_, by rw [if_neg (by decide), if_pos rfl, hv]⟩
      · exact ⟨_, by rw [if_neg (by decide), if_neg (by decide), if_pos rfl, hv]⟩
      · exact ⟨_, by
          rw [if_neg (by decide), if_neg (by decide), if_neg (by decide),
            if_neg (by decide), if_neg (by decide), if_pos rfl, hv]⟩
      · exact ⟨_, by
          rw [if_neg (by decide), if_neg (by decide), if_neg (by decide),
            if_neg (by decide), if_neg (by decide), if_neg (by decide), if_pos rfl, hv]⟩

theorem decodeLines_error_of_mem {ls : List (List Char)} {l : List Char}
    (hl : l ∈ ls) (herr : ∀ m : Meta, ∃ e, decodeLine m l = Except.error e) :
    ∀ m : Meta, ∃ e, decodeLines m ls = Except.error e := by
  induction ls with
  | nil => cases hl
  | cons a as ih =>
    intro m
    cases hl with
    | head =>
      obtain ⟨e, he⟩ := herr m
      exact ⟨e, by rw [decodeLines, he]⟩
    | tail _ hmem =>
      rw [decodeLines]
      cases hda : decodeLine m a with
      | ok m2 => exact ih hmem m2
      | error e => exact ⟨e, rfl⟩

/-! ## Claim theorems: metadata decoder -/

/-- C7: metadata decoding never returns a partial result: any input containing
a line with no colon, or a recognized numeric field whose value fails to
parse, makes the whole decode fail with a parse error, so no fields are
produced. -/
theorem c7_decode_never_partial (s : String)
    (h : ∃ l ∈ rustLines s, badLine l = true) :
    ∃ e, decodeMetadata s = Except.error e := by
  obtain ⟨l, hl, hbad⟩ := h
  unfold decodeMetadata
  exact decodeLines_error_of_mem hl (decodeLine_error_of_badLine hbad) Meta.empty

/-- Witness for C7 at the spec's own example, the colon-free line
"cgmem1024", and at "cgmem:12\r" — a numeric field on a final unterminated
line whose kept carriage return makes the value unparsable. -/
theorem c7_witness :
    ((∃ l ∈ rustLines "cgmem1024", badLine l = true) ∧
      (∃ e, decodeMetadata "cgmem1024" = Except.error e)) ∧
    ((∃ l ∈ rustLines "cgmem:12\r", badLine l = true) ∧
      (∃ e, decodeMetadata "cgmem:12\r" = Except.error e)) :=
  ⟨⟨by decide, c7_decode_never_partial "cgmem1024" (by decide)⟩,
   ⟨by decide, c7_decode_never_partial "cgmem:12\r" (by decide)⟩⟩

/-- C8: the well-formed input "cgmem:1024\nexitcode:0\ntime:1\ntime-wall:2\n"
decodes to memory 1024, exit code 0, cpu time 1, wall time 2, with the signal,
message and status fields all absent. -/
theorem c8_decode_wellformed :
    decodeMetadata "cgmem:1024\nexitcode:0\ntime:1\ntime-wall:2\n" =
      Except.ok ⟨some 1024, some 0, none, none, none, some 1, some 2⟩ := rfl

/-- Counterexample for C4: the decoder does not truncate a fractional
time value; "time:1.5" is parsed with the u32 parser, which rejects it, so the
whole decode fails instead of yielding cpu_time = 1. -/
theorem c4_counterexample :
    decodeMetadata "time:1.5" = Except.error "Failed to parse cpu time" ∧
    ∀ m : Meta, decodeMetadata "time:1.5" ≠ Except.ok m := by
  refine ⟨rfl, fun m h => ?_⟩
  rw [show decodeMetadata "time:1.5" = Except.error "Failed to parse cpu time" from rfl] at h
  cases h

/-- C4 as amended: a `time` or `time-wall` line whose value fails the u32
parse — in particular any value with a fractional part — makes the whole
decode fail with a parse error; no truncated value is produced. -/
theorem c4_amended (s : String)
    (h : ∃ l ∈ rustLines s, badTimeLine l = true) :
    ∃ e, decodeMetadata s = Except.error e := by
  obtain ⟨l, hl, hbad⟩ := h
  unfold decodeMetadata
  exact decodeLines_error_of_mem hl
    (decodeLine_error_of_badLine (badLine_of_badTimeLine hbad)) Meta.empty

/-- Witness for C4 at the input "time:1.5", and at "time:7\r" — a final
unterminated line whose kept carriage return makes the u32 parse fail. -/
theorem c4_witness :
    ((∃ l ∈ rustLines "time:1.5", badTimeLine l = true) ∧
      (∃ e, decodeMetadata "time:1.5" = Except.error e)) ∧
    ((∃ l ∈ rustLines "time:7\r", badTimeLine l = true) ∧
      (∃ e, decodeMetadata "time:7\r" = Except.error e)) :=
  ⟨⟨by decide, c4_amended "time:1.5" (by decide)⟩,
   ⟨by decide, c4_amended "time:7\r" (by decide)⟩⟩

/-- C1: given that the metadata file was read and every line decoded,
`Isolate::run` returns an error exactly when the primitive exited with a
failing status and the decoded metadata holds no exit code; any returned
stage result carries the decoded exit code unchanged. -/
theorem c1_run_error_iff_no_exitcode (statusSuccess : Bool)
    (metadata stdoutS stderrS : String) (m : Meta)
    (h : decodeMetadata metadata = Except.ok m) :
    ((∃ e, isolateRun statusSuccess metadata stdoutS stderrS = Except.error e) ↔
      statusSuccess = false ∧ m.exit_code = none) ∧
    (∀ r, isolateRun statusSuccess metadata stdoutS stderrS = Except.ok r →
      r.exit_code = m.exit_code) := by
  unfold isolateRun
  rw [h]
  constructor
  · cases statusSuccess <;> rcases hec : m.exit_code with _ | v <;> simp [hec]
  · intro r hr
    split at hr
    · cases hr
    · rename_i m2 heq
      injection heq with heq2
      subst heq2
      split at hr
      · cases hr
      · injection hr with h2
        rw [← h2]
        rfl

/-- Witness for C1 at the spec's example: the primitive exits non-zero but the
metadata holds exitcode 137 and status SG, so a normal result with exit code
137 is returned rather than an error. -/
theorem c1_witness :
    decodeMetadata "exitcode:137\nstatus:SG" =
      Except.ok ⟨none, some 137, none, none, some "SG", none, none⟩ ∧
    (((∃ e, isolateRun false "exitcode:137\nstatus:SG" "o" "e" = Except.error e) ↔
        false = false ∧
          (⟨none, some 137, none, none, some "SG", none, none⟩ : Meta).exit_code = none) ∧
      (∀ r, isolateRun false "exitcode:137\nstatus:SG" "o" "e" = Except.ok r →
        r.exit_code = (⟨none, some 137, none, none, some "SG", none, none⟩ : Meta).exit_code)) :=
  ⟨rfl, c1_run_error_iff_no_exitcode false "exitcode:137\nstatus:SG" "o" "e"
    ⟨none, some 137, none, none, some "SG", none, none⟩ rfl⟩

/-! ## Claim theorems: box identifier allocator -/

theorem boxSeq_eq (i : Nat) : ∀ c, boxSeq c i = ((c + i) % U64_MOD) % MAX_BOX_ID := by
  induction i with
  | zero => intro c; rfl
  | succ n ih =>
    intro c
    show boxSeq (counterAfter c) n = _
    rw [ih, counterAfter, Nat.mod_add_mod]
    congr 2
    omega

/-- Counterexample for C6: starting from the counter value 2^64 - 1 (one step
before the u64 wraparound), the allocations at steps 0 and 16 both return box
id 15, because 2^64 is not a multiple of 900; so the 900 successive
allocations are not pairwise distinct from every starting value. -/
theorem c6_counterexample :
    ¬ (∀ c i j : Nat, i < MAX_BOX_ID → j < MAX_BOX_ID →
        boxSeq c i = boxSeq c j → i = j) := by
  intro hcl
  have h16 := hcl (2 ^ 64 - 1) 0 16 (by decide) (by decide) (by decide)
  exact absurd h16 (by decide)

/-- C6 as amended: the allocator returns `counter % MAX_BOX_ID` from an
incrementing counter, and provided the 900 successive allocations happen
without u64 counter wraparound (counter + MAX_BOX_ID at most 2^64), they
return each identifier in [0, MAX_BOX_ID) exactly once: the ids are pairwise
distinct and cover the whole range. -/
theorem c6_amended (c : Nat) (h : c + MAX_BOX_ID ≤ U64_MOD) :
    (∀ i j, i < MAX_BOX_ID → j < MAX_BOX_ID → boxSeq c i = boxSeq c j → i = j) ∧
    (Finset.range MAX_BOX_ID).image (boxSeq c) = Finset.range MAX_BOX_ID := by
  have hval : ∀ i, i < MAX_BOX_ID → boxSeq c i = (c + i) % MAX_BOX_ID := by
    intro i hi
    have hlt : c + i < U64_MOD := by omega
    rw [boxSeq_eq, Nat.mod_eq_of_lt hlt]
  have hinj : ∀ i j, i < MAX_BOX_ID → j < MAX_BOX_ID →
      boxSeq c i = boxSeq c j → i = j := by
    intro i j hi hj hij
    rw [hval i hi, hval j hj] at hij
    have hmod : i % MAX_BOX_ID = j % MAX_BOX_ID := Nat.ModEq.add_left_cancel' c hij
    rwa [Nat.mod_eq_of_lt hi, Nat.mod_eq_of_lt hj] at hmod
  refine ⟨hinj, ?_⟩
  apply Finset.eq_of_subset_of_card_le
  · intro x hx
    rw [Finset.mem_image] at hx
    obtain ⟨i, hi, rfl⟩ := hx
    rw [Finset.mem_range, boxSeq_eq]
    exact Nat.mod_lt _ (by decide)
  · rw [Finset.card_image_of_injOn
      (fun i hi j hj hij =>
        hinj i j (Finset.mem_range.mp hi) (Finset.mem_range.mp hj) hij)]

/-- Witness for C6 as amended, at the starting counter value 0. -/
theorem c6_witness :
    0 + MAX_BOX_ID ≤ U64_MOD ∧
    ((∀ i j, i < MAX_BOX_ID → j < MAX_BOX_ID → boxSeq 0 i = boxSeq 0 j → i = j) ∧
      (Finset.range MAX_BOX_ID).image (boxSeq 0) = Finset.range MAX_BOX_ID) :=
  ⟨by decide, c6_amended 0 (by decide)⟩

/-! ## Claim theorems: handle destruction -/

/-- C9: the drop handler issues exactly one cleanup command, for the handle's
own box id, whatever the outcome of any prior run; a failing or unspawnable
cleanup is only written to the log, and the handler's result type carries no
error to propagate. -/
theorem c9_drop_cleanup (boxId : Nat) (outcome : CleanupOutcome) :
    (isolateDrop boxId outcome).commands = [CleanupCmd.cleanup boxId] ∧
    (isolateDrop boxId outcome).commands.length = 1 ∧
    (∀ outS errS, outcome = CleanupOutcome.finished false outS errS →
      (isolateDrop boxId outcome).logs ≠ []) ∧
    (∀ msg, outcome = CleanupOutcome.spawnFailure msg →
      (isolateDrop boxId outcome).logs ≠ []) := by
  refine ⟨rfl, rfl, ?_, ?_⟩
  · intro outS errS hout
    subst hout
    simp [isolateDrop]
  · intro msg hout
    subst hout
    simp [isolateDrop]

/-- Witness for C9 at box id 5 with a failing cleanup exit status. -/
theorem c9_witness :
    (isolateDrop 5 (CleanupOutcome.finished false "o" "e")).commands =
      [CleanupCmd.cleanup 5] ∧
    (isolateDrop 5 (CleanupOutcome.finished false "o" "e")).logs ≠ [] :=
  ⟨(c9_drop_cleanup 5 (CleanupOutcome.finished false "o" "e")).1,
   (c9_drop_cleanup 5 (CleanupOutcome.finished false "o" "e")).2.2.1 "o" "e" rfl⟩

/-! ## Helpers and concrete fixtures for the installation-pipeline claims -/

/-- Recognizer for `isolate --run` invocations in an event trace. -/
def isRunE : Event → Bool
  | Event.runCmd _ => true
  | _ => false

/-- Recognizer for registry inserts in an event trace. -/
def isDbE : Event → Bool
  | Event.dbInsert _ _ => true
  | _ => false

/-- Recognizer for name-cache inserts in an event trace. -/
def isCacheE : Event → Bool
  | Event.cacheInsert _ _ => true
  | _ => false

/-- Replace only the (never-read) `isolate --init` exit status of an effect
environment. -/
def setInitExit (e : Env) (b : Bool) : Env :=
  ⟨e.initSpawnOk, b, e.workdirExists, e.removeWorkdirOk, e.createWorkdirOk, e.writeNixOk,
   e.semaphoreOk, e.runSpawnOk, e.runExitSuccess, e.runStdout, e.runStderr, e.dbOk,
   e.runtimeId, e.runtimeDirExists, e.removeRuntimeDirOk, e.createRuntimeDirOk,
   e.writeCompileOk, e.permCompileOk, e.writeRunOk, e.permRunOk, e.writeEnvOk,
   e.permEnvOk, e.writeShellNixOk, e.metadataContent⟩

/-- A request with no per-request limit overrides. -/
def noLimits : RequestedLimits := ⟨none, none, none, none, none, none, none⟩

/-- Concrete installation ceilings used by the witnesses. -/
def ceil0 : Limits := ⟨1024, 10, 20, 2, 64, 1000000, 10⟩

/-- A concrete valid installation request with no compile script. -/
def req0 : AddRuntimeRequest := ⟨"python", "shellsrc", "runsrc", "main.py", "", noLimits⟩

/-- A concrete valid request whose requested memory exceeds the ceiling. -/
def reqLim : AddRuntimeRequest :=
  ⟨"python", "shellsrc", "runsrc", "main.py", "",
   ⟨some 99999, none, none, none, none, none, none⟩⟩

/-- An effect environment in which every external effect succeeds. -/
def baseEnv : Env :=
  ⟨true, true, false, true, true, true, true, true, true, "out", "err",
   true, 7, false, true, true, true, true, true, true, true, true, true,
   some "exitcode:0"⟩

/-- Like `baseEnv`, but `isolate --init` exits with a failing status. -/
def envInitFail : Env :=
  ⟨true, false, false, true, true, true, true, true, true, "out", "err",
   true, 7, false, true, true, true, true, true, true, true, true, true,
   some "exitcode:0"⟩

/-- Like `baseEnv`, but `isolate --run` exits with a failing status and the
metadata it leaves holds a status line and no exit code. -/
def envRunFail : Env :=
  ⟨true, true, false, true, true, true, true, true, false, "out", "err",
   true, 7, false, true, true, true, true, true, true, true, true, true,
   some "status:TO"⟩

/-! ## Claim theorems: initialization failure (C5) -/

/-- Counterexample for C5: in `install_package` the exit status of the inline
`isolate --init` invocation is never inspected, so with a failing init exit
status the pipeline still runs the sandbox and answers 200 OK instead of
surfacing an initialization error. -/
theorem c5_counterexample :
    envInitFail.initExitSuccess = false ∧
    Event.runCmd 0 ∈ (installPackage req0 ceil0 0 envInitFail).1 ∧
    (installPackage req0 ceil0 0 envInitFail).2 =
      Response.okResult ⟨none, some 0, none, none, none, "out", "err", none, none⟩ :=
  ⟨rfl, by decide, rfl⟩

/-- C5 as amended: `Isolate::init` surfaces a failing init exit status as an
error carrying the captured stderr and stdout, producing no handle; the
installation pipeline's inline init invocation, by contrast, ignores the init
exit status entirely — its whole behaviour is independent of that status. -/
theorem c5_init_error (boxId : Nat) (statusSuccess : Bool) (stdoutS stderrS : String)
    (h : statusSuccess = false) :
    isolateInit boxId statusSuccess stdoutS stderrS = InitResult.failure stderrS stdoutS ∧
    (∀ (req : AddRuntimeRequest) (ceiling : Limits) (counter : Nat) (env : Env)
        (b1 b2 : Bool),
      installPackage req ceiling counter (setInitExit env b1) =
        installPackage req ceiling counter (setInitExit env b2)) := by
  subst h
  exact ⟨rfl, fun req ceiling counter env b1 b2 => rfl⟩

/-- Witness for C5 as amended at box id 3. -/
theorem c5_witness :
    isolateInit 3 false "boxdir" "errtext" = InitResult.failure "errtext" "boxdir" ∧
    (∀ (req : AddRuntimeRequest) (ceiling : Limits) (counter : Nat) (env : Env)
        (b1 b2 : Bool),
      installPackage req ceiling counter (setInitExit env b1) =
        installPackage req ceiling counter (setInitExit env b2)) :=
  c5_init_error 3 false "boxdir" "errtext" rfl

/-! ## Claim theorems: request validation (C3) -/

/-- Counterexample for C3: a request whose requested memory limit exceeds the
configured ceiling is rejected as a caller error (400), but only after
`isolate --init` has been invoked and the working directory created — the
sandbox is touched before the limit validation runs. -/
theorem c3_counterexample :
    (installPackage reqLim ceil0 0 baseEnv).2 =
      Response.badRequest "memory limit exceeds the configured ceiling" ∧
    Event.initCmd 0 ∈ (installPackage reqLim ceil0 0 baseEnv).1 ∧
    Event.createDir (PathName.boxWorkdir 0) ∈ (installPackage reqLim ceil0 0 baseEnv).1 :=
  ⟨rfl, by decide, by decide⟩

/-- C3 as amended: an empty required field is rejected before any sandbox is
touched (the pipeline performs no step at all); a requested limit outside the
configured ceiling is likewise rejected as a caller error, but only after
`isolate --init`, the working-directory reset and the recipe write — still
before any `isolate --run`, registry insert or cache insert. -/
theorem c3_validation (req : AddRuntimeRequest) (ceiling : Limits) (counter : Nat)
    (env : Env) :
    (validationMessage req ≠ "" →
      installPackage req ceiling counter env =
        ([], Response.badRequest (validationMessage req))) ∧
    (∀ msg, validationMessage req = "" →
      get_limits req.limits ceiling = Except.error msg →
      env.initSpawnOk = true →
      (env.workdirExists = true → env.removeWorkdirOk = true) →
      env.createWorkdirOk = true → env.writeNixOk = true →
      (installPackage req ceiling counter env).2 = Response.badRequest msg ∧
      Event.initCmd (nextBoxId counter) ∈ (installPackage req ceiling counter env).1 ∧
      ∀ e ∈ (installPackage req ceiling counter env).1,
        isRunE e = false ∧ isDbE e = false ∧ isCacheE e = false) := by
  constructor
  · intro h
    unfold installPackage
    rw [if_pos h]
  · intro msg hv hlim h1 h2 h3 h4
    cases hw : env.workdirExists with
    | false =>
      simp [installPackage, hv, hlim, h1, h3, h4, hw, isRunE, isDbE, isCacheE]
    | true =>
      have h2t := h2 hw
      simp [installPackage, hv, hlim, h1, h2t, h3, h4, hw, isRunE, isDbE, isCacheE]

/-- Witness for C3 as amended: the empty-name branch at a concrete request,
and the over-ceiling branch at `reqLim`. -/
theorem c3_witness :
    installPackage ⟨"", "s", "r", "f", "", noLimits⟩ ceil0 0 baseEnv =
      ([], Response.badRequest (validationMessage ⟨"", "s", "r", "f", "", noLimits⟩)) ∧
    ((installPackage reqLim ceil0 0 baseEnv).2 =
        Response.badRequest "memory limit exceeds the configured ceiling" ∧
      Event.initCmd (nextBoxId 0) ∈ (installPackage reqLim ceil0 0 baseEnv).1 ∧
      ∀ e ∈ (installPackage reqLim ceil0 0 baseEnv).1,
        isRunE e = false ∧ isDbE e = false ∧ isCacheE e = false) :=
  ⟨(c3_validation ⟨"", "s", "r", "f", "", noLimits⟩ ceil0 0 baseEnv).1 (by decide),
   (c3_validation reqLim ceil0 0 baseEnv).2
     "memory limit exceeds the configured ceiling" rfl rfl rfl
     (fun h => rfl) rfl rfl⟩

/-! ## Claim theorems: failing run in the installation pipeline (C10) -/

/-- C10: in the installation pipeline a failing `isolate --run` exit status is
never escalated to an execution error: when the metadata file is readable and
every line decodes, `install_package` skips the whole persistence block (no
registry insert, no cache insert) and still answers 200 OK with the decoded
stage result — even when the metadata holds no exit code, the very case in
which `Isolate::run` would return an error. -/
theorem c10_run_failure_still_ok (req : AddRuntimeRequest) (ceiling : Limits)
    (counter : Nat) (env : Env) (l : Limits) (s : String) (m : Meta)
    (hval : validationMessage req = "")
    (hlim : get_limits req.limits ceiling = Except.ok l)
    (h1 : env.initSpawnOk = true)
    (h2 : env.workdirExists = true → env.removeWorkdirOk = true)
    (h3 : env.createWorkdirOk = true) (h4 : env.writeNixOk = true)
    (h5 : env.semaphoreOk = true) (h6 : env.runSpawnOk = true)
    (hrun : env.runExitSuccess = false)
    (hmeta : env.metadataContent = some s)
    (hdec : decodeMetadata s = Except.ok m) :
    (installPackage req ceiling counter env).2 =
      Response.okResult (mkStageResult m env.runStdout env.runStderr) ∧
    (∀ e ∈ (installPackage req ceiling counter env).1,
      isDbE e = false ∧ isCacheE e = false) ∧
    (m.exit_code = none →
      ∃ e, isolateRun false s env.runStdout env.runStderr = Except.error e) := by
  have hlast : m.exit_code = none →
      ∃ e, isolateRun false s env.runStdout env.runStderr = Except.error e := by
    intro hec
    refine ⟨"isolate --run exited with error code but exit code was not found in metadata", ?_⟩
    rw [isolateRun, hdec]
    simp [hec]
  cases hw : env.workdirExists with
  | false =>
    refine ⟨?_, ?_, hlast⟩ <;>
      simp [installPackage, decodePhase, hval, hlim, h1, h3, h4, h5, h6, hrun,
        hmeta, hdec, hw, isDbE, isCacheE]
  | true =>
    have h2t := h2 hw
    refine ⟨?_, ?_, hlast⟩ <;>
      simp [installPackage, decodePhase, hval, hlim, h1, h2t, h3, h4, h5, h6, hrun,
        hmeta, hdec, hw, isDbE, isCacheE]

/-- Witness for C10: a failing run whose metadata is "status:TO" (no exit
code) still yields 200 OK with the decoded result, with no registry or cache
insert, while `Isolate::run` errors on the same inputs. -/
theorem c10_witness :
    (installPackage req0 ceil0 0 envRunFail).2 =
      Response.okResult
        (mkStageResult ⟨none, none, none, none, some "TO", none, none⟩
          envRunFail.runStdout envRunFail.runStderr) ∧
    (∀ e ∈ (installPackage req0 ceil0 0 envRunFail).1,
      isDbE e = false ∧ isCacheE e = false) ∧
    ((⟨none, none, none, none, some "TO", none, none⟩ : Meta).exit_code = none →
      ∃ e, isolateRun false "status:TO" envRunFail.runStdout envRunFail.runStderr =
        Except.error e) :=
  c10_run_failure_still_ok req0 ceil0 0 envRunFail ceil0 "status:TO"
    ⟨none, none, none, none, some "TO", none, none⟩
    rfl rfl rfl (fun _ => rfl) rfl rfl rfl rfl rfl rfl rfl

/-! ## Trace lemmas for the persistence claim (C2) -/

theorem decodePhase_fst (t : List Event) (env : Env) : (decodePhase t env).1 = t := by
  unfold decodePhase
  cases hm : env.metadataContent with
  | none => rfl
  | some s =>
    dsimp only
    cases hd : decodeMetadata s with
    | ok m => rfl
    | error e => rfl

theorem scriptsPhase_cache {req : AddRuntimeRequest} {env : Env} {t : List Event}
    {id : Nat} {name : String}
    (h : Event.cacheInsert id name ∈ (scriptsPhase req env t).1) :
    Event.cacheInsert id name ∈ t ∨
      (id = env.runtimeId ∧ name = req.name ∧ env.writeRunOk = true ∧
        env.permRunOk = true ∧ env.writeEnvOk = true ∧ env.permEnvOk = true ∧
        env.writeShellNixOk = true) := by
  unfold scriptsPhase at h
  split_ifs at h with hw1 hw2 hw3 hw4 hw5 <;>
    simp_all [decodePhase_fst]

theorem compilePhase_cache {req : AddRuntimeRequest} {env : Env} {t : List Event}
    {id : Nat} {name : String}
    (h : Event.cacheInsert id name ∈ (compilePhase req env t).1) :
    Event.cacheInsert id name ∈ t ∨
      (id = env.runtimeId ∧ name = req.name ∧ env.writeRunOk = true ∧
        env.permRunOk = true ∧ env.writeEnvOk = true ∧ env.permEnvOk = true ∧
        env.writeShellNixOk = true ∧
        (req.compile_script ≠ "" → env.writeCompileOk = true ∧ env.permCompileOk = true)) := by
  unfold compilePhase at h
  split_ifs at h with hc hw1 hw2
  · simp_all
  · simp_all
  · rcases scriptsPhase_cache h with hmem | hok
    · simp at hmem
      exact Or.inl hmem
    · exact Or.inr ⟨hok.1, hok.2.1, hok.2.2.1, hok.2.2.2.1, hok.2.2.2.2.1,
        hok.2.2.2.2.2.1, hok.2.2.2.2.2.2, fun _ => ⟨by simp_all, by simp_all⟩⟩
  · rcases scriptsPhase_cache h with hmem | hok
    · exact Or.inl hmem
    · exact Or.inr ⟨hok.1, hok.2.1, hok.2.2.1, hok.2.2.2.1, hok.2.2.2.2.1,
        hok.2.2.2.2.2.1, hok.2.2.2.2.2.2, fun hne => absurd hne hc⟩

theorem persistPhase_cache {req : AddRuntimeRequest} {env : Env} {t : List Event}
    {id : Nat} {name : String}
    (h : Event.cacheInsert id name ∈ (persistPhase req env t).1) :
    Event.cacheInsert id name ∈ t ∨
      (id = env.runtimeId ∧ name = req.name ∧ env.writeRunOk = true ∧
        env.permRunOk = true ∧ env.writeEnvOk = true ∧ env.permEnvOk = true ∧
        env.writeShellNixOk = true ∧
        (req.compile_script ≠ "" → env.writeCompileOk = true ∧ env.permCompileOk = true)) := by
  unfold persistPhase at h
  split_ifs at h <;>
    first
      | (rcases compilePhase_cache h with hmem | hok
         · try simp at hmem
           exact Or.inl hmem
         · exact Or.inr hok)
      | simp_all

theorem installPackage_cache {req : AddRuntimeRequest} {ceiling : Limits} {counter : Nat}
    {env : Env} {id : Nat} {name : String}
    (h : Event.cacheInsert id name ∈ (installPackage req ceiling counter env).1) :
    env.runExitSuccess = true ∧ id = env.runtimeId ∧ name = req.name ∧
      env.writeRunOk = true ∧ env.permRunOk = true ∧ env.writeEnvOk = true ∧
      env.permEnvOk = true ∧ env.writeShellNixOk = true ∧
      (req.compile_script ≠ "" → env.writeCompileOk = true ∧ env.permCompileOk = true) := by
  unfold installPackage at h
  by_cases hval : validationMessage req ≠ ""
  · rw [if_pos hval] at h
    simp at h
  · rw [if_neg hval] at h
    by_cases h1 : (!env.initSpawnOk) = true
    · rw [if_pos h1] at h
      simp at h
    · rw [if_neg h1] at h
      by_cases h2 : (env.workdirExists && !env.removeWorkdirOk) = true
      · rw [if_pos h2] at h
        rcases hwe : env.workdirExists <;> simp [hwe] at h
      · rw [if_neg h2] at h
        by_cases h3 : (!env.createWorkdirOk) = true
        · rw [if_pos h3] at h
          rcases hwe : env.workdirExists <;> simp [hwe] at h
        · rw [if_neg h3] at h
          by_cases h4 : (!env.writeNixOk) = true
          · rw [if_pos h4] at h
            rcases hwe : env.workdirExists <;> simp [hwe] at h
          · rw [if_neg h4] at h
            rcases hgl : get_limits req.limits ceiling with msg | lims <;> rw [hgl] at h
            · rcases hwe : env.workdirExists <;> simp [hwe] at h
            · by_cases h5 : (!env.semaphoreOk) = true
              · rw [if_pos h5] at h
                rcases hwe : env.workdirExists <;> simp [hwe] at h
              · rw [if_neg h5] at h
                by_cases h6 : (!env.runSpawnOk) = true
                · rw [if_pos h6] at h
                  rcases hwe : env.workdirExists <;> simp [hwe] at h
                · rw [if_neg h6] at h
                  by_cases h7 : env.runExitSuccess = true
                  · rw [if_pos h7] at h
                    rcases persistPhase_cache h with hmem | hok
                    · rcases hwe : env.workdirExists <;> simp [hwe] at hmem
                    · exact ⟨h7, hok⟩
                  · rw [if_neg h7] at h
                    rw [decodePhase_fst] at h
                    rcases hwe : env.workdirExists <;> simp [hwe] at h

theorem installPackage_no_persist_of_run_failure (req : AddRuntimeRequest)
    (ceiling : Limits) (counter : Nat) (env : Env)
    (hrun : env.runExitSuccess = false) :
    (installPackage req ceiling counter env).1.filter isDbE = [] ∧
    (installPackage req ceiling counter env).1.filter isCacheE = [] := by
  unfold installPackage
  by_cases hval : validationMessage req ≠ ""
  · rw [if_pos hval]
    exact ⟨rfl, rfl⟩
  · rw [if_neg hval]
    by_cases h1 : (!env.initSpawnOk) = true
    · rw [if_pos h1]
      exact ⟨rfl, rfl⟩
    · rw [if_neg h1]
      by_cases h2 : (env.workdirExists && !env.removeWorkdirOk) = true
      · rw [if_pos h2]
        rcases hwe : env.workdirExists <;> exact ⟨rfl, rfl⟩
      · rw [if_neg h2]
        by_cases h3 : (!env.createWorkdirOk) = true
        · rw [if_pos h3]
          rcases hwe : env.workdirExists <;> exact ⟨rfl, rfl⟩
        · rw [if_neg h3]
          by_cases h4 : (!env.writeNixOk) = true
          · rw [if_pos h4]
            rcases hwe : env.workdirExists <;> exact ⟨rfl, rfl⟩
          · rw [if_neg h4]
            rcases hgl : get_limits req.limits ceiling with msg | lims <;> dsimp only
            · rcases hwe : env.workdirExists <;> exact ⟨rfl, rfl⟩
            · by_cases h5 : (!env.semaphoreOk) = true
              · rw [if_pos h5]
                rcases hwe : env.workdirExists <;> exact ⟨rfl, rfl⟩
              · rw [if_neg h5]
                by_cases h6 : (!env.runSpawnOk) = true
                · rw [if_pos h6]
                  rcases hwe : env.workdirExists <;> exact ⟨rfl, rfl⟩
                · rw [if_neg h6]
                  rw [if_neg (by rw [hrun]; exact Bool.false_ne_true)]
                  rw [decodePhase_fst]
                  rcases hwe : env.workdirExists <;> exact ⟨rfl, rfl⟩

/-- C2: a failing outer-stage run inserts no registry row and adds no cache
entry; a cache entry can only ever be added after a succeeding run and
succeeding artifact writes (run, env, shell recipe, and the compile script
when supplied); and on a succeeding run with all effects succeeding, exactly
one row is inserted, exactly one cache entry mapping the new id to the
requested name is added as the last step, and the artifact directory receives
the run and env scripts always and the compile script exactly when a
non-empty compile script was supplied. -/
theorem c2_install_persistence (req : AddRuntimeRequest) (ceiling : Limits)
    (counter : Nat) (env : Env) :
    (env.runExitSuccess = false →
      (installPackage req ceiling counter env).1.filter isDbE = [] ∧
      (installPackage req ceiling counter env).1.filter isCacheE = []) ∧
    (∀ id name, Event.cacheInsert id name ∈ (installPackage req ceiling counter env).1 →
      env.runExitSuccess = true ∧ id = env.runtimeId ∧ name = req.name ∧
      env.writeRunOk = true ∧ env.permRunOk = true ∧ env.writeEnvOk = true ∧
      env.permEnvOk = true ∧ env.writeShellNixOk = true ∧
      (req.compile_script ≠ "" → env.writeCompileOk = true ∧ env.permCompileOk = true)) ∧
    (env.runExitSuccess = true →
      validationMessage req = "" →
      env.initSpawnOk = true → (env.workdirExists = true → env.removeWorkdirOk = true) →
      env.createWorkdirOk = true → env.writeNixOk = true → env.semaphoreOk = true →
      env.runSpawnOk = true → env.dbOk = true →
      (env.runtimeDirExists = true → env.removeRuntimeDirOk = true) →
      env.createRuntimeDirOk = true →
      (req.compile_script ≠ "" → env.writeCompileOk = true ∧ env.permCompileOk = true) →
      env.writeRunOk = true → env.permRunOk = true → env.writeEnvOk = true →
      env.permEnvOk = true → env.writeShellNixOk = true →
      ∀ l, get_limits req.limits ceiling = Except.ok l →
      (installPackage req ceiling counter env).1.filter isDbE =
        [Event.dbInsert req.name req.source_file_name] ∧
      (installPackage req ceiling counter env).1.filter isCacheE =
        [Event.cacheInsert env.runtimeId req.name] ∧
      (installPackage req ceiling counter env).1.getLast? =
        some (Event.cacheInsert env.runtimeId req.name) ∧
      Event.writeFile (PathName.runtimeRun env.runtimeId) req.run_script ∈
        (installPackage req ceiling counter env).1 ∧
      Event.writeFile (PathName.runtimeEnv env.runtimeId) env.runStdout ∈
        (installPackage req ceiling counter env).1 ∧
      (Event.writeFile (PathName.runtimeCompile env.runtimeId) req.compile_script ∈
        (installPackage req ceiling counter env).1 ↔ req.compile_script ≠ "")) := by
  refine ⟨fun hrun => installPackage_no_persist_of_run_failure req ceiling counter env hrun,
    fun id name h => installPackage_cache h, ?_⟩
  intro hrun hval h1 h2 h3 h4 h5 h6 hdbok hrm hcr hcomp hw1 hw2 hw3 hw4 hw5 l hgl
  rcases hwe : env.workdirExists with _ | _ <;>
    rcases hrd : env.runtimeDirExists with _ | _ <;>
      by_cases hc : req.compile_script = "" <;>
        simp_all [installPackage, persistPhase, compilePhase, scriptsPhase, decodePhase_fst,
          isDbE, isCacheE, List.getLast?]

/-- Witness for C2: the failing-run branch at `envRunFail` and the all-effects
succeeding branch at `baseEnv`, both with the concrete request `req0`. -/
theorem c2_witness :
    ((installPackage req0 ceil0 0 envRunFail).1.filter isDbE = [] ∧
      (installPackage req0 ceil0 0 envRunFail).1.filter isCacheE = []) ∧
    ((installPackage req0 ceil0 0 baseEnv).1.filter isDbE =
        [Event.dbInsert req0.name req0.source_file_name] ∧
      (installPackage req0 ceil0 0 baseEnv).1.filter isCacheE =
        [Event.cacheInsert baseEnv.runtimeId req0.name] ∧
      (installPackage req0 ceil0 0 baseEnv).1.getLast? =
        some (Event.cacheInsert baseEnv.runtimeId req0.name) ∧
      Event.writeFile (PathName.runtimeRun baseEnv.runtimeId) req0.run_script ∈
        (installPackage req0 ceil0 0 baseEnv).1 ∧
      Event.writeFile (PathName.runtimeEnv baseEnv.runtimeId) baseEnv.runStdout ∈
        (installPackage req0 ceil0 0 baseEnv).1 ∧
      (Event.writeFile (PathName.runtimeCompile baseEnv.runtimeId) req0.compile_script ∈
        (installPackage req0 ceil0 0 baseEnv).1 ↔ req0.compile_script ≠ "")) :=
  ⟨(c2_install_persistence req0 ceil0 0 envRunFail).1 rfl,
   (c2_install_persistence req0 ceil0 0 baseEnv).2.2 rfl rfl rfl (fun _ => rfl)
     rfl rfl rfl rfl rfl (fun _ => rfl) rfl (fun _ => ⟨rfl, rfl⟩)
     rfl rfl rfl rfl rfl ceil0 rfl⟩

end Envicutor
